import Mathlib

/-!
Verification of the pixie data service (Go).  The repository contains a
streaming result accumulator (`tablePrinter` with methods `AcceptTable`,
`HandleInit`, `HandleRecord`, `HandleDone`) and an HTTP handler
(`pixieHandler`).  Two versions of the handler exist in the sources: the
one in src/main.go and an alternate version (src/unnamed/part_000) with
a richer error taxonomy.  Both are embedded below as pure functions over
an environment that records the outcome of each external call.
-/

set_option autoImplicit false

namespace PixieService

/-- One cell of a streamed record.  In the Go source each cell is a typed
datum from the vendor SDK exposing a String method; the embedding keeps
only that observable string form (src/main.go line 110, d.String()). -/
structure Datum where
  strForm : String
  deriving DecidableEq

/-- A streamed record: an ordered list of cells (Go: r.Data). -/
structure Record where
  data : List Datum
  deriving DecidableEq

/-- The accumulator state (Go: tablePrinter, src/main.go lines 62-65):
`cols` is the derived column-name list, `rows` the accumulated rows. -/
structure TablePrinter where
  cols : List String
  rows : List (List String)
  deriving DecidableEq

/-- The reflective view of one field of the metadata value, as observed
by AcceptTable (src/main.go lines 77-95): a slice of strings, a slice of
structs (each struct observed only through an optional string Name
field), or any other shape. -/
inductive FieldVal where
  | strSlice (xs : List String)
  | structSlice (items : List (Option String))
  | otherVal
  deriving DecidableEq

/-- The metadata value handed to AcceptTable: either a pointer to a
struct or the struct itself (src/main.go lines 70-73 dereference a
pointer).  A struct is its list of named fields. -/
inductive MetaVal where
  | ptrTo (fields : List (String × FieldVal))
  | direct (fields : List (String × FieldVal))
  deriving DecidableEq

/-- `reflect.ValueOf` followed by the pointer dereference of
src/main.go lines 70-73. -/
def derefMeta : MetaVal → List (String × FieldVal)
  | MetaVal.ptrTo fs => fs
  | MetaVal.direct fs => fs

/-- The probed attribute names, in source order (src/main.go line 75). -/
def fieldNames : List String := ["Columns", "ColNames", "Fields", "Schema"]

/-- `v.FieldByName(name)`: the first field with the given name, if any. -/
def findField : List (String × FieldVal) → String → Option FieldVal
  | [], _ => none
  | (n, fv) :: rest, name => if n = name then some fv else findField rest name

/-- The probing loop of AcceptTable (src/main.go lines 76-97), with the
running value of t.cols threaded through.  A string-slice field replaces
cols and breaks; a struct-slice field appends each item Name present and
breaks only if cols is then non-empty; other shapes are skipped. -/
def probeLoop (fs : List (String × FieldVal)) : List String → List String → List String
  | [], cols => cols
  | name :: rest, cols =>
    match findField fs name with
    | some (FieldVal.strSlice xs) => xs
    | some (FieldVal.structSlice items) =>
      let cols2 := cols ++ items.filterMap id
      if cols2.length > 0 then cols2 else probeLoop fs rest cols2
    | some FieldVal.otherVal => probeLoop fs rest cols
    | none => probeLoop fs rest cols

/-- `tablePrinter.AcceptTable` (src/main.go lines 68-99): derives column
names by probing the metadata and always returns the printer itself as
the record handler together with a nil error. -/
def acceptTable (t : TablePrinter) (metadata : MetaVal) : TablePrinter × Option String :=
  ({ t with cols := probeLoop (derefMeta metadata) fieldNames t.cols }, none)

/-- `tablePrinter.HandleInit` (src/main.go lines 102-105): a no-op that
returns a nil error. -/
def handleInit (t : TablePrinter) (_metadata : MetaVal) : TablePrinter × Option String :=
  (t, none)

/-- The stringified row built from a record (src/main.go lines 108-111). -/
def recordRow (r : Record) : List String :=
  r.data.map Datum.strForm

/-- `tablePrinter.HandleRecord` (src/main.go lines 107-114): appends the
stringified cells of the record to rows and returns a nil error. -/
def handleRecord (t : TablePrinter) (r : Record) : TablePrinter × Option String :=
  ({ t with rows := t.rows ++ [recordRow r] }, none)

/-- `tablePrinter.HandleDone` (src/main.go lines 116-118): a no-op that
returns a nil error. -/
def handleDone (t : TablePrinter) : TablePrinter × Option String :=
  (t, none)

/-- Delivery of a sequence of records to the accumulator, one
HandleRecord call per record, in arrival order. -/
def handleRecords : TablePrinter → List Record → TablePrinter
  | t, [] => t
  | t, r :: rs => handleRecords (handleRecord t r).1 rs

theorem handleRecords_rows (t : TablePrinter) (recs : List Record) :
    (handleRecords t recs).rows = t.rows ++ recs.map recordRow := by
  induction recs generalizing t with
  | nil => simp [handleRecords]
  | cons r rs ih =>
    simp [handleRecords, handleRecord, ih]

theorem getD_map_recordRow (recs : List Record) (i : Nat) (h : i < recs.length) :
    (recs.map recordRow).getD i [] = recordRow (recs.getD i ⟨[]⟩) := by
  induction recs generalizing i with
  | nil => simp at h
  | cons r rs ih =>
    cases i with
    | zero => simp
    | succ j =>
      simp only [List.map_cons, List.getD_cons_succ]
      exact ih j (by simpa using h)

/-- Claim C1: starting from an accumulator with empty rows, delivering N
records via HandleRecord yields rows of length N whose i-th entry is the
ordered stringification of record i, in arrival order with no
reordering, deduplication or sorting.  (The embedding is a pure
function, so feeding the same sequence to two fresh accumulators yields
identical results definitionally.) -/
theorem c1_rows_match_arrival_order (cols0 : List String) (recs : List Record) :
    (handleRecords ⟨cols0, []⟩ recs).rows = recs.map recordRow ∧
    (handleRecords ⟨cols0, []⟩ recs).rows.length = recs.length ∧
    ∀ i, i < recs.length →
      (handleRecords ⟨cols0, []⟩ recs).rows.getD i [] = recordRow (recs.getD i ⟨[]⟩) := by
  have h := handleRecords_rows ⟨cols0, []⟩ recs
  simp only [h]
  refine ⟨by simp, by simp, ?_⟩
  intro i hi
  exact getD_map_recordRow recs i (by simpa using hi)

theorem c1_witness :
    (handleRecords ⟨["c"], []⟩ [⟨[⟨"12345"⟩, ⟨"/api/users"⟩]⟩, ⟨[⟨"67890"⟩, ⟨"/login"⟩]⟩]).rows.getD 1 []
      = ["67890", "/login"] := by
  have h := (c1_rows_match_arrival_order ["c"]
    [⟨[⟨"12345"⟩, ⟨"/api/users"⟩]⟩, ⟨[⟨"67890"⟩, ⟨"/login"⟩]⟩]).2.2 1 (by decide)
  simpa [recordRow] using h

/-- Claim C7: the column derivation of AcceptTable treats a pointer to a
metadata struct and the already-dereferenced struct identically. -/
theorem c7_ptr_and_value_identical (t : TablePrinter) (fs : List (String × FieldVal)) :
    acceptTable t (MetaVal.ptrTo fs) = acceptTable t (MetaVal.direct fs) := rfl

/-- Claim C10: the record-path callbacks are infallible: HandleInit,
HandleRecord and HandleDone all return a nil error for every state,
metadata value and record, and HandleInit and HandleDone leave the whole
accumulator state (columns and rows) unchanged; HandleRecord leaves the
columns unchanged.  (The Go methods ignore their context argument, so
the embedding omits it.) -/
theorem c10_record_path_infallible (t : TablePrinter) (m : MetaVal) (r : Record) :
    handleInit t m = (t, none) ∧
    handleDone t = (t, none) ∧
    (handleRecord t r).2 = none ∧
    ((handleRecord t r).1).cols = t.cols :=
  ⟨rfl, rfl, rfl, rfl⟩

theorem probeLoop_cons_none (fs : List (String × FieldVal)) (name : String)
    (rest : List String) (cols : List String) (h : findField fs name = none) :
    probeLoop fs (name :: rest) cols = probeLoop fs rest cols := by
  simp [probeLoop, h]

theorem probeLoop_cons_otherVal (fs : List (String × FieldVal)) (name : String)
    (rest : List String) (cols : List String) (h : findField fs name = some FieldVal.otherVal) :
    probeLoop fs (name :: rest) cols = probeLoop fs rest cols := by
  simp [probeLoop, h]

theorem probeLoop_cons_strSlice (fs : List (String × FieldVal)) (name : String)
    (rest : List String) (cols : List String) (xs : List String)
    (h : findField fs name = some (FieldVal.strSlice xs)) :
    probeLoop fs (name :: rest) cols = xs := by
  simp [probeLoop, h]

theorem probeLoop_cons_structSlice (fs : List (String × FieldVal)) (name : String)
    (rest : List String) (cols : List String) (items : List (Option String))
    (h : findField fs name = some (FieldVal.structSlice items)) :
    probeLoop fs (name :: rest) cols =
      (if (cols ++ items.filterMap id).length > 0 then cols ++ items.filterMap id
       else probeLoop fs rest (cols ++ items.filterMap id)) := by
  simp [probeLoop, h]

theorem probeLoop_all_unmatched (fs : List (String × FieldVal)) (l : List String)
    (cols : List String)
    (h : ∀ n ∈ l, findField fs n = none ∨ findField fs n = some FieldVal.otherVal) :
    probeLoop fs l cols = cols := by
  induction l with
  | nil => rfl
  | cons a rest ih =>
    rcases h a (by simp) with h1 | h1
    · rw [probeLoop_cons_none fs a rest cols h1]
      exact ih fun n hn => h n (by simp [hn])
    · rw [probeLoop_cons_otherVal fs a rest cols h1]
      exact ih fun n hn => h n (by simp [hn])

theorem acceptTable_cols (t : TablePrinter) (m : MetaVal) :
    ((acceptTable t m).1).cols = probeLoop (derefMeta m) fieldNames t.cols := rfl

theorem filterMap_id_map_some (names : List String) :
    (names.map some).filterMap id = names := by
  induction names with
  | nil => rfl
  | cons a l ih => simp [ih]

/-- Claim C2: if the metadata exposes one of the probed attribute names
(Columns, ColNames, Fields, Schema) as a slice of strings, and exposes
no other probed attribute, then AcceptTable sets the derived columns to
exactly that list of strings, in the same order (for any prior state of
the accumulator, since a string-slice match assigns rather than
appends). -/
theorem c2_string_slice_columns (t : TablePrinter) (m : MetaVal) (nm : String)
    (xs : List String)
    (hmem : nm ∈ fieldNames)
    (hfound : findField (derefMeta m) nm = some (FieldVal.strSlice xs))
    (habs : ∀ nm2 ∈ fieldNames, nm2 ≠ nm → findField (derefMeta m) nm2 = none) :
    ((acceptTable t m).1).cols = xs := by
  have hC := habs "Columns" (by simp [fieldNames])
  have hN := habs "ColNames" (by simp [fieldNames])
  have hF := habs "Fields" (by simp [fieldNames])
  have hS := habs "Schema" (by simp [fieldNames])
  simp only [fieldNames, List.mem_cons, List.not_mem_nil, or_false] at hmem
  show probeLoop (derefMeta m) fieldNames t.cols = xs
  rcases hmem with rfl | rfl | rfl | rfl
  · rw [show fieldNames = "Columns" :: ["ColNames", "Fields", "Schema"] from rfl,
      probeLoop_cons_strSlice _ _ _ _ xs hfound]
  · rw [show fieldNames = "Columns" :: ["ColNames", "Fields", "Schema"] from rfl,
      probeLoop_cons_none _ _ _ _ (hC (by decide)),
      probeLoop_cons_strSlice _ _ _ _ xs hfound]
  · rw [show fieldNames = "Columns" :: ["ColNames", "Fields", "Schema"] from rfl,
      probeLoop_cons_none _ _ _ _ (hC (by decide)),
      probeLoop_cons_none _ _ _ _ (hN (by decide)),
      probeLoop_cons_strSlice _ _ _ _ xs hfound]
  · rw [show fieldNames = "Columns" :: ["ColNames", "Fields", "Schema"] from rfl,
      probeLoop_cons_none _ _ _ _ (hC (by decide)),
      probeLoop_cons_none _ _ _ _ (hN (by decide)),
      probeLoop_cons_none _ _ _ _ (hF (by decide)),
      probeLoop_cons_strSlice _ _ _ _ xs hfound]

theorem c2_witness :
    ((acceptTable ⟨[], []⟩ (MetaVal.direct [("Schema", FieldVal.strSlice ["upid", "req_path"])])).1).cols
      = ["upid", "req_path"] :=
  c2_string_slice_columns ⟨[], []⟩ (MetaVal.direct [("Schema", FieldVal.strSlice ["upid", "req_path"])])
    "Schema" ["upid", "req_path"] (by decide) (by decide) (by decide)

/-- Claim C4: on a fresh accumulator, if the metadata exposes exactly
one probed attribute and it is a slice of field-descriptor structs each
carrying its own string Name, AcceptTable sets the derived columns to
the ordered list of those names. -/
theorem c4_struct_slice_columns (rows0 : List (List String)) (m : MetaVal) (nm : String)
    (names : List String)
    (hmem : nm ∈ fieldNames)
    (hfound : findField (derefMeta m) nm = some (FieldVal.structSlice (names.map some)))
    (habs : ∀ nm2 ∈ fieldNames, nm2 ≠ nm → findField (derefMeta m) nm2 = none) :
    ((acceptTable ⟨[], rows0⟩ m).1).cols = names := by
  have hC := habs "Columns" (by simp [fieldNames])
  have hN := habs "ColNames" (by simp [fieldNames])
  have hF := habs "Fields" (by simp [fieldNames])
  have hS := habs "Schema" (by simp [fieldNames])
  simp only [fieldNames, List.mem_cons, List.not_mem_nil, or_false] at hmem
  show probeLoop (derefMeta m) fieldNames [] = names
  have hstep : ∀ rest : List String,
      (∀ n ∈ rest, findField (derefMeta m) n = none) →
      probeLoop (derefMeta m) (nm :: rest) [] = names := by
    intro rest hrest
    rw [probeLoop_cons_structSlice _ _ _ _ _ hfound, filterMap_id_map_some]
    cases names with
    | nil =>
      simp only [List.nil_append, List.length_nil, gt_iff_lt, Nat.lt_irrefl, if_false]
      exact probeLoop_all_unmatched _ _ _ fun n hn => Or.inl (hrest n hn)
    | cons a as => simp
  rcases hmem with rfl | rfl | rfl | rfl
  · rw [show fieldNames = "Columns" :: ["ColNames", "Fields", "Schema"] from rfl]
    refine hstep _ ?_
    intro n hn
    rcases (by simpa using hn : n = "ColNames" ∨ n = "Fields" ∨ n = "Schema") with rfl | rfl | rfl
    · exact hN (by decide)
    · exact hF (by decide)
    · exact hS (by decide)
  · rw [show fieldNames = "Columns" :: ["ColNames", "Fields", "Schema"] from rfl,
      probeLoop_cons_none _ _ _ _ (hC (by decide))]
    refine hstep _ ?_
    intro n hn
    rcases (by simpa using hn : n = "Fields" ∨ n = "Schema") with rfl | rfl
    · exact hF (by decide)
    · exact hS (by decide)
  · rw [show fieldNames = "Columns" :: ["ColNames", "Fields", "Schema"] from rfl,
      probeLoop_cons_none _ _ _ _ (hC (by decide)),
      probeLoop_cons_none _ _ _ _ (hN (by decide))]
    refine hstep _ ?_
    intro n hn
    rcases (by simpa using hn : n = "Schema") with rfl
    exact hS (by decide)
  · rw [show fieldNames = "Columns" :: ["ColNames", "Fields", "Schema"] from rfl,
      probeLoop_cons_none _ _ _ _ (hC (by decide)),
      probeLoop_cons_none _ _ _ _ (hN (by decide)),
      probeLoop_cons_none _ _ _ _ (hF (by decide))]
    exact hstep [] (by simp)

theorem c4_witness :
    ((acceptTable ⟨[], []⟩ (MetaVal.direct
        [("Fields", FieldVal.structSlice [some "svc", some "latency"])])).1).cols
      = ["svc", "latency"] :=
  c4_struct_slice_columns [] (MetaVal.direct
      [("Fields", FieldVal.structSlice [some "svc", some "latency"])])
    "Fields" ["svc", "latency"] (by decide) (by decide) (by decide)

/-- Claim C5: for a metadata value exposing neither recognized shape
(each probed attribute is absent or has an unrecognized shape),
AcceptTable on a fresh accumulator returns a nil error and leaves the
derived columns empty, and a subsequent HandleRecord call still
succeeds, appending the stringified row normally. -/
theorem c5_unknown_shape_degrades (m : MetaVal) (r : Record)
    (h : ∀ n ∈ fieldNames,
      findField (derefMeta m) n = none ∨ findField (derefMeta m) n = some FieldVal.otherVal) :
    acceptTable ⟨[], []⟩ m = (⟨[], []⟩, none) ∧
    handleRecord (acceptTable ⟨[], []⟩ m).1 r = (⟨[], [recordRow r]⟩, none) := by
  have hp := probeLoop_all_unmatched (derefMeta m) fieldNames [] h
  constructor
  · simp [acceptTable, hp]
  · simp [acceptTable, hp, handleRecord]

theorem c5_witness :
    acceptTable ⟨[], []⟩ (MetaVal.direct [("Columns", FieldVal.otherVal), ("Extra", FieldVal.strSlice ["z"])])
        = (⟨[], []⟩, none) ∧
    handleRecord (acceptTable ⟨[], []⟩
        (MetaVal.direct [("Columns", FieldVal.otherVal), ("Extra", FieldVal.strSlice ["z"])])).1
        ⟨[⟨"42"⟩]⟩
      = (⟨[], [["42"]]⟩, none) := by
  have h := c5_unknown_shape_degrades
    (MetaVal.direct [("Columns", FieldVal.otherVal), ("Extra", FieldVal.strSlice ["z"])])
    ⟨[⟨"42"⟩]⟩ (by decide)
  simpa [recordRow] using h

/-- Claim C3 counterexample: the metadata exposes the higher-priority
probed attribute Columns as an empty string slice and the next
candidate ColNames as the string slice of names.  The claim predicts
that probing continues past the empty candidate and derives the later
names; the code instead assigns the empty slice and breaks, so the
derived columns are empty rather than the later names. -/
theorem c3_counterexample :
    ((acceptTable ⟨[], []⟩ (MetaVal.direct
        [("Columns", FieldVal.strSlice []), ("ColNames", FieldVal.strSlice ["upid"])])).1).cols
      = [] ∧
    ([] : List String) ≠ ["upid"] := by
  refine ⟨rfl, by decide⟩

/-- Claim C3 amended: probing stops unconditionally at the first probed
attribute that is a string slice, even when that slice is empty (the
later candidates are never consulted); only a struct-slice attribute
that yields zero descriptor names lets probing continue to the later
candidates. -/
theorem c3_amended_stop_policy (xs : List String) :
    ((acceptTable ⟨[], []⟩ (MetaVal.direct
        [("Columns", FieldVal.strSlice []), ("ColNames", FieldVal.strSlice xs)])).1).cols
      = [] ∧
    ((acceptTable ⟨[], []⟩ (MetaVal.direct
        [("Columns", FieldVal.structSlice []), ("ColNames", FieldVal.strSlice xs)])).1).cols
      = xs := by
  constructor
  · rfl
  · rw [acceptTable_cols]
    simp [probeLoop, findField, fieldNames, derefMeta]

/-- Claim C6 counterexample: two AcceptTable calls on the same
accumulator, each with metadata exposing Columns as a non-empty string
slice.  The first call sets columns; the claim predicts the second call
leaves them unchanged; the code instead replaces them. -/
theorem c6_counterexample :
    ((acceptTable ⟨[], []⟩ (MetaVal.direct [("Columns", FieldVal.strSlice ["a"])])).1).cols
      = ["a"] ∧
    ((acceptTable (acceptTable ⟨[], []⟩ (MetaVal.direct [("Columns", FieldVal.strSlice ["a"])])).1
        (MetaVal.direct [("Columns", FieldVal.strSlice ["x"])])).1).cols
      = ["x"] ∧
    (["x"] : List String) ≠ ["a"] := by
  refine ⟨rfl, rfl, by decide⟩

/-- Claim C6 amended: columns are not write-once.  A later AcceptTable
call whose probe finds a string-slice attribute replaces the columns
regardless of their current value, and one whose probe finds a
struct-slice attribute with a named descriptor appends that name to the
existing columns; columns survive a later call unchanged only when no
probed attribute yields a string slice or a descriptor name. -/
theorem c6_amended_columns_mutable (t : TablePrinter) (xs : List String) (n : String) :
    ((acceptTable t (MetaVal.direct [("Columns", FieldVal.strSlice xs)])).1).cols = xs ∧
    ((acceptTable t (MetaVal.direct [("Columns", FieldVal.structSlice [some n])])).1).cols
      = t.cols ++ [n] := by
  constructor
  · rw [acceptTable_cols]
    simp [probeLoop, findField, fieldNames, derefMeta]
  · rw [acceptTable_cols]
    simp [probeLoop, findField, fieldNames, derefMeta]

/-- Whether `pat` is a leading segment of `cs` (character lists). -/
def startsWithChars : List Char → List Char → Bool
  | [], _ => true
  | _ :: _, [] => false
  | p :: ps, c :: cs => p == c && startsWithChars ps cs

/-- Whether `pat` occurs somewhere inside the character list. -/
def anywhereChars (pat : List Char) : List Char → Bool
  | [] => startsWithChars pat []
  | c :: cs => startsWithChars pat (c :: cs) || anywhereChars pat cs

/-- Go strings.Contains: whether `pat` occurs inside `s`. -/
def strContains (s pat : String) : Bool :=
  anywhereChars pat.data s.data

/-- The application configuration (src/main.go lines 27-31). -/
structure Config where
  pxApiKey : String
  pxClusterID : String
  cloudAddr : String
  deriving DecidableEq

/-- The decoded request body of the /pixie handler (src/main.go
lines 127-129): a single script field. -/
structure ReqBody where
  script : String
  deriving DecidableEq

/-- An error value from the vendor client: its message text and whether
errdefs.IsCompilationError holds of it. -/
structure Err where
  msg : String
  isCompilationErr : Bool
  deriving DecidableEq

/-- The external operations the handler may attempt, in order. -/
inductive SessionStep where
  | loadConfigStep
  | newClientStep
  | newVizierStep
  | executeScriptStep
  | streamStep
  deriving DecidableEq

/-- An HTTP response: status code and body text. -/
structure HttpResponse where
  status : Nat
  body : String
  deriving DecidableEq

/-- The environment of one request to the src/main.go handler: the
request method, the JSON-decode outcome of the body, and the outcome of
each external call, should the handler reach it. -/
structure MainEnv where
  method : String
  decodedBody : Option ReqBody
  configRes : Except String Config
  clientRes : Except Err Unit
  vizierRes : Except Err Unit
  execRes : Except Err Unit
  streamRes : Except Err Unit

/-- `pixieHandler` of src/main.go (lines 120-193), embedded as a pure
function from the request environment to the response plus the ordered
list of external operations the handler attempted. -/
def pixieHandler (env : MainEnv) : HttpResponse × List SessionStep :=
  if env.method ≠ "POST" then
    (⟨405, "Only POST allowed"⟩, [])
  else
    match env.decodedBody with
    | none => (⟨400, "Invalid JSON body"⟩, [])
    | some req =>
      if req.script = "" then
        (⟨400, "Missing script field in request body"⟩, [])
      else
        match env.configRes with
        | Except.error _ => (⟨500, "Failed to load configuration"⟩, [SessionStep.loadConfigStep])
        | Except.ok _ =>
          match env.clientRes with
          | Except.error e =>
            (⟨500, "Failed to create Pixie API client: " ++ e.msg⟩,
              [SessionStep.loadConfigStep, SessionStep.newClientStep])
          | Except.ok _ =>
            match env.vizierRes with
            | Except.error e =>
              (⟨500, "Failed to connect to cluster: " ++ e.msg⟩,
                [SessionStep.loadConfigStep, SessionStep.newClientStep, SessionStep.newVizierStep])
            | Except.ok _ =>
              match env.execRes with
              | Except.error e =>
                (⟨400, "Script execution failed: " ++ e.msg⟩,
                  [SessionStep.loadConfigStep, SessionStep.newClientStep,
                    SessionStep.newVizierStep, SessionStep.executeScriptStep])
              | Except.ok _ =>
                match env.streamRes with
                | Except.error e =>
                  (⟨500, "Streaming failed: " ++ e.msg⟩,
                    [SessionStep.loadConfigStep, SessionStep.newClientStep,
                      SessionStep.newVizierStep, SessionStep.executeScriptStep,
                      SessionStep.streamStep])
                | Except.ok _ =>
                  (⟨200, "result json"⟩,
                    [SessionStep.loadConfigStep, SessionStep.newClientStep,
                      SessionStep.newVizierStep, SessionStep.executeScriptStep,
                      SessionStep.streamStep])

/-- The environment of one request to the alternate handler version
(src/unnamed/part_000): outcomes of each external call, whether the
Vizier context deadline was exceeded, and the script-file read. -/
structure AltEnv where
  configRes : Except String Config
  clientRes : Except Err Unit
  vizierRes : Except Err Unit
  vizDeadlineExceeded : Bool
  scriptRes : Except String String
  execRes : Except Err Unit
  streamRes : Except Err Unit

/-- The alternate `pixieHandler` (src/unnamed/part_000 lines 122-259),
with its substring-based error classification, embedded as a pure
function from the request environment to the response. -/
def pixieHandlerAlt (env : AltEnv) : HttpResponse :=
  match env.configRes with
  | Except.error _ => ⟨500, "Failed to load configuration"⟩
  | Except.ok config =>
    if config.pxApiKey = "" then
      ⟨500, "PX_API_KEY environment variable is not set"⟩
    else if config.pxClusterID = "" then
      ⟨500, "PX_CLUSTER_ID environment variable is not set"⟩
    else
      match env.clientRes with
      | Except.error e =>
        if strContains e.msg "unauthenticated" || strContains e.msg "invalid API key" then
          ⟨401, "Authentication failed: Invalid API key"⟩
        else
          ⟨500, "Failed to create Pixie API client: " ++ e.msg⟩
      | Except.ok _ =>
        match env.vizierRes with
        | Except.error e =>
          if strContains e.msg "unauthenticated" || strContains e.msg "invalid API key" then
            ⟨401, "Authentication failed: Invalid API key or cluster ID"⟩
          else if strContains e.msg "not found" || strContains e.msg "does not exist" then
            ⟨404, "Cluster not found: " ++ config.pxClusterID⟩
          else if env.vizDeadlineExceeded then
            ⟨504, "Timeout connecting to cluster"⟩
          else
            ⟨500, "Failed to connect to cluster: " ++ e.msg⟩
        | Except.ok _ =>
          match env.scriptRes with
          | Except.error _ => ⟨500, "Failed to read PXL script"⟩
          | Except.ok _ =>
            match env.execRes with
            | Except.error e => ⟨400, e.msg⟩
            | Except.ok _ =>
              match env.streamRes with
              | Except.error e =>
                if e.isCompilationErr then
                  ⟨400, "PxL compilation error: " ++ e.msg⟩
                else if strContains e.msg "unauthenticated" || strContains e.msg "invalid token" then
                  ⟨401, "Authentication failed during script execution: Invalid or expired token"⟩
                else
                  ⟨500, e.msg⟩
              | Except.ok _ => ⟨200, "result json"⟩

/-- Claim C8: a POST request to /pixie whose body decodes with an empty
script string is answered with HTTP 400, and no remote session work is
attempted for it: the handler returns before config loading, client
creation, cluster connection, script execution and streaming. -/
theorem c8_empty_script_rejected (env : MainEnv)
    (hm : env.method = "POST") (hb : env.decodedBody = some ⟨""⟩) :
    (pixieHandler env).1.status = 400 ∧
    (pixieHandler env).2 = [] ∧
    SessionStep.newClientStep ∉ (pixieHandler env).2 ∧
    SessionStep.newVizierStep ∉ (pixieHandler env).2 ∧
    SessionStep.executeScriptStep ∉ (pixieHandler env).2 := by
  simp [pixieHandler, hm, hb]

theorem c8_witness :
    (pixieHandler ⟨"POST", some ⟨""⟩, Except.ok ⟨"k", "c", "a"⟩,
        Except.ok (), Except.ok (), Except.ok (), Except.ok ()⟩).1.status = 400 ∧
    (pixieHandler ⟨"POST", some ⟨""⟩, Except.ok ⟨"k", "c", "a"⟩,
        Except.ok (), Except.ok (), Except.ok (), Except.ok ()⟩).2 = [] ∧
    SessionStep.newClientStep ∉ (pixieHandler ⟨"POST", some ⟨""⟩, Except.ok ⟨"k", "c", "a"⟩,
        Except.ok (), Except.ok (), Except.ok (), Except.ok ()⟩).2 ∧
    SessionStep.newVizierStep ∉ (pixieHandler ⟨"POST", some ⟨""⟩, Except.ok ⟨"k", "c", "a"⟩,
        Except.ok (), Except.ok (), Except.ok (), Except.ok ()⟩).2 ∧
    SessionStep.executeScriptStep ∉ (pixieHandler ⟨"POST", some ⟨""⟩, Except.ok ⟨"k", "c", "a"⟩,
        Except.ok (), Except.ok (), Except.ok (), Except.ok ()⟩).2 :=
  c8_empty_script_rejected
    ⟨"POST", some ⟨""⟩, Except.ok ⟨"k", "c", "a"⟩,
      Except.ok (), Except.ok (), Except.ok (), Except.ok ()⟩ rfl rfl

/-- Claim C9 counterexample: in the src/main.go handler, a streaming
error whose text contains the substring unauthenticated is answered
with HTTP 500, not 401: the claim fails on that handler at this
concrete input. -/
theorem c9_counterexample :
    strContains "rpc error: unauthenticated token" "unauthenticated" = true ∧
    (pixieHandler ⟨"POST", some ⟨"px.display(df)"⟩, Except.ok ⟨"k", "c", "a"⟩,
        Except.ok (), Except.ok (), Except.ok (),
        Except.error ⟨"rpc error: unauthenticated token", false⟩⟩).1.status = 500 ∧
    (500 : Nat) ≠ 401 := by
  refine ⟨by decide, rfl, by decide⟩

/-- Claim C9 amended: the unauthenticated-to-401 mapping for streaming
errors exists only in the alternate handler version
(src/unnamed/part_000): there, a streaming error that is not a
compilation error and whose text contains the substring unauthenticated
is answered with HTTP 401 Unauthorized; in the src/main.go handler,
every streaming error is answered with HTTP 500 regardless of its
text. -/
theorem c9_amended_auth_mapping (envA : AltEnv) (envM : MainEnv) (c : Config)
    (e eM : Err) (s : String) (req : ReqBody)
    (ha1 : envA.configRes = Except.ok c)
    (ha2 : c.pxApiKey ≠ "") (ha3 : c.pxClusterID ≠ "")
    (ha4 : envA.clientRes = Except.ok ()) (ha5 : envA.vizierRes = Except.ok ())
    (ha6 : envA.scriptRes = Except.ok s) (ha7 : envA.execRes = Except.ok ())
    (ha8 : envA.streamRes = Except.error e)
    (ha9 : e.isCompilationErr = false)
    (ha10 : strContains e.msg "unauthenticated" = true)
    (hm1 : envM.method = "POST") (hm2 : envM.decodedBody = some req)
    (hm3 : req.script ≠ "")
    (hm4 : envM.configRes = Except.ok c) (hm5 : envM.clientRes = Except.ok ())
    (hm6 : envM.vizierRes = Except.ok ()) (hm7 : envM.execRes = Except.ok ())
    (hm8 : envM.streamRes = Except.error eM) :
    (pixieHandlerAlt envA).status = 401 ∧ (pixieHandler envM).1.status = 500 := by
  constructor
  · simp [pixieHandlerAlt, ha1, ha2, ha3, ha4, ha5, ha6, ha7, ha8, ha9, ha10]
  · simp [pixieHandler, hm1, hm2, hm3, hm4, hm5, hm6, hm7, hm8]

theorem c9_amended_witness :
    (pixieHandlerAlt ⟨Except.ok ⟨"k", "c", "a"⟩, Except.ok (), Except.ok (), false,
        Except.ok "df", Except.ok (),
        Except.error ⟨"rpc error: unauthenticated token", false⟩⟩).status = 401 ∧
    (pixieHandler ⟨"POST", some ⟨"px.display(df)"⟩, Except.ok ⟨"k", "c", "a"⟩,
        Except.ok (), Except.ok (), Except.ok (),
        Except.error ⟨"stream broke", false⟩⟩).1.status = 500 :=
  c9_amended_auth_mapping
    ⟨Except.ok ⟨"k", "c", "a"⟩, Except.ok (), Except.ok (), false,
      Except.ok "df", Except.ok (),
      Except.error ⟨"rpc error: unauthenticated token", false⟩⟩
    ⟨"POST", some ⟨"px.display(df)"⟩, Except.ok ⟨"k", "c", "a"⟩,
      Except.ok (), Except.ok (), Except.ok (),
      Except.error ⟨"stream broke", false⟩⟩
    ⟨"k", "c", "a"⟩ ⟨"rpc error: unauthenticated token", false⟩ ⟨"stream broke", false⟩
    "df" ⟨"px.display(df)"⟩
    rfl (by decide) (by decide) rfl rfl rfl rfl rfl rfl (by decide)
    rfl rfl (by decide) rfl rfl rfl rfl rfl

end PixieService
